import Mathlib

/-!
Verification of the MoveinSync voice chat controller
(src/movi-frontend/app/voiceChat/page.tsx).

The file shallowly embeds the two variants of the voice chat page:

* the push-to-talk pipeline (`startRecording` / `mediaRecorder.onstop`,
  `processAudio`, `playAudio`), modelled as pure functions from the
  outcomes of the three remote calls to the resulting component state
  plus an ordered trace of observable steps;
* the streaming `ChatInterface` (the `useDataChannel('agent.thoughts')`
  handler and the two `useEffect` blocks reconciling the assistant
  interaction state with the live speech preview), modelled as state
  transformers over the message list, the live preview slot and the
  active tool list.

JavaScript truthiness of optional strings (`a || b`) is modelled by
`jsOr`; `Date.now()` and `new Date()` are modelled by an explicit `now`
parameter; machine integers do not occur (all counts are small Nats).
-/

namespace MoviVoice

/-- Roles of a streaming-variant message (`'user' | 'assistant' | 'system'`). -/
inductive Role where
  | user
  | assistant
  | system
  deriving DecidableEq, Repr

/-- Tool status stored in a message metadata (`'pending' | 'success' | 'error'`). -/
inductive TurnStatus where
  | pending
  | success
  | error
  deriving DecidableEq, Repr

/-- The `metadata` object of a streaming message: `{ toolName?, status? }`. -/
structure MsgMeta where
  toolName : Option String
  status : Option TurnStatus
  deriving DecidableEq, Repr

/-- A streaming-variant `Message` record: `{ id, role, content, timestamp,
isStreaming?, metadata? }`. Timestamps are modelled as the `now` value of the
event that created the message. -/
structure CMsg where
  id : String
  role : Role
  content : String
  timestamp : Nat
  isStreaming : Option Bool
  metadata : Option MsgMeta
  deriving DecidableEq, Repr

/-- Status of an in-flight tool (`'running' | 'completed' | 'failed'`). -/
inductive ToolRunStatus where
  | running
  | completed
  | failed
  deriving DecidableEq, Repr

/-- A `ToolStatus` record: `{ id, name, status, message }`. -/
structure ToolStatus where
  id : String
  name : String
  status : ToolRunStatus
  message : String
  deriving DecidableEq, Repr

/-- The mutable state of `ChatInterface`: `messages`, `liveUserText`
(the live preview slot) and `activeTools`. -/
structure CState where
  messages : List CMsg
  liveUserText : String
  activeTools : List ToolStatus
  deriving DecidableEq, Repr

/-- Events arriving on the `agent.thoughts` data channel, discriminated by
the `type` field of the decoded JSON payload. `toolName` is optional in the
payload. -/
inductive DCEvent where
  | transcription (content : String) (toolName : Option String)
  | tool_call (toolName : Option String) (content : String)
  | tool_result (toolName : Option String) (content : String)
  deriving DecidableEq, Repr

/-- JavaScript `a || b` on an optional string: `undefined` and the empty
string are falsy, so both select the default. -/
def jsOr (a : Option String) (b : String) : String :=
  match a with
  | none => b
  | some v => if v = "" then b else v

/-- Index of the last element satisfying `p`, as JavaScript
`Array.prototype.findLastIndex` (with `none` for `-1`). -/
def findLastIdx {α : Type} (p : α → Bool) : List α → Option Nat
  | [] => none
  | a :: as =>
    match findLastIdx p as with
    | some i => some (i + 1)
    | none => if p a then some 0 else none

/-- Replace the element at an index by its image under `f` (no change when
the index is out of range). -/
def modifyIdx {α : Type} (f : α → α) : Nat → List α → List α
  | _, [] => []
  | 0, a :: as => f a :: as
  | n + 1, a :: as => a :: modifyIdx f n as

/-- The predicate of the `findLastIndex` call in the `tool_result` branch:
`m.role === 'system' && m.metadata?.toolName === data.toolName` (strict
equality, so two `undefined` values compare equal). -/
def matchToolMsg (tn : Option String) (m : CMsg) : Bool :=
  decide (m.role = Role.system ∧ m.metadata.bind MsgMeta.toolName = tn)

/-- The `useDataChannel('agent.thoughts')` handler of `ChatInterface`,
acting on one decoded event.

* `transcription`: role is `assistant` iff `toolName === 'agent'`; a `user`
  role clears the live preview slot; the message is appended with
  `isStreaming: false` and no metadata.
* `tool_call`: appends a `ToolStatus` entry named `toolName || 'Unknown
  Tool'` with status `running`, and appends a `system` message carrying
  `{ toolName, status: 'pending' }`.
* `tool_result`: removes every active tool whose `name` strictly equals
  `toolName`, and rewrites the last `system` message whose
  `metadata?.toolName` strictly equals `toolName` (content replaced,
  status set to `success`). -/
def handleEvent (now : Nat) (ev : DCEvent) (st : CState) : CState :=
  match ev with
  | DCEvent.transcription content toolName =>
    let role := if toolName = some "agent" then Role.assistant else Role.user
    { st with
      liveUserText := if role = Role.user then "" else st.liveUserText,
      messages := st.messages ++ [⟨toString now, role, content, now, some false, none⟩] }
  | DCEvent.tool_call toolName content =>
    { st with
      activeTools := st.activeTools ++
        [⟨toString now, jsOr toolName "Unknown Tool", ToolRunStatus.running, content⟩],
      messages := st.messages ++
        [⟨toString now, Role.system, content, now, none, some ⟨toolName, some TurnStatus.pending⟩⟩] }
  | DCEvent.tool_result toolName content =>
    let remaining := st.activeTools.filter fun t => !(decide (some t.name = toolName))
    let updated :=
      match findLastIdx (matchToolMsg toolName) st.messages with
      | some idx =>
        modifyIdx
          (fun old =>
            { old with
              content := content,
              metadata := some ⟨old.metadata.bind MsgMeta.toolName, some TurnStatus.success⟩ })
          idx st.messages
      | none => st.messages
    { st with activeTools := remaining, messages := updated }

/-- Assistant interaction state reported by `useVoiceAssistant`. -/
inductive AState where
  | idle
  | listening
  | thinking
  | speaking
  deriving DecidableEq, Repr

/-- Duplicate test of the thinking-commit effect: the immediately preceding
message is a `user` message whose content equals the live preview. -/
def isDupLast (st : CState) : Bool :=
  match st.messages.getLast? with
  | some last => decide (last.role = Role.user ∧ last.content = st.liveUserText)
  | none => false

/-- The first state-tracking `useEffect` of `ChatInterface` (restricted to
its state mutations; starting and stopping the browser speech recognizer is
an external effect): the live preview slot is cleared exactly when the new
state is `speaking`. -/
def previewEffect (state : AState) (st : CState) : CState :=
  if state = AState.listening then st
  else if state = AState.thinking ∧ st.liveUserText ≠ "" then st
  else if state = AState.speaking then { st with liveUserText := "" }
  else st

/-- The thinking-commit `useEffect` of `ChatInterface`: on `thinking` with a
non-empty live preview, append a `user` message carrying the preview unless
the immediately preceding message is an identical `user` message. The
preview slot is not touched here. -/
def commitEffect (now : Nat) (state : AState) (st : CState) : CState :=
  if state = AState.thinking ∧ st.liveUserText ≠ "" then
    if isDupLast st then st
    else { st with
      messages := st.messages ++ [⟨toString now, Role.user, st.liveUserText, now, none, none⟩] }
  else st

/-- One reaction of `ChatInterface` to an interaction-state change: the two
effects run in declaration order. -/
def onStateChange (now : Nat) (state : AState) (st : CState) : CState :=
  commitEffect now state (previewEffect state st)

/-- Type of a push-to-talk `Message`: `'user' | 'assistant'`. -/
inductive MsgType where
  | user
  | assistant
  deriving DecidableEq, Repr

/-- A push-to-talk `Message` record: `{ id, type, text, timestamp,
audioUrl? }`. -/
structure Msg where
  id : String
  type : MsgType
  text : String
  timestamp : Nat
  audioUrl : Option String
  deriving DecidableEq, Repr

/-- Outcome of `mediaRecorder.onstop`: either a rejection (duration below
500 ms, or no captured bytes) or a blob of the given total size handed to
the pipeline. -/
inductive StopOutcome where
  | rejectedTooShort
  | rejectedEmpty
  | processed (totalSize : Nat)
  deriving DecidableEq, Repr

/-- What the `onstop` handler did: its outcome, whether the input stream
tracks were stopped (the device released), and whether `processAudio` was
invoked. -/
structure StopResult where
  outcome : StopOutcome
  tracksStopped : Bool
  pipelineInvoked : Bool
  deriving DecidableEq, Repr

/-- Total byte size of the captured chunks, as the `reduce` over
`audioChunksRef.current`. -/
def chunkTotal (chunks : List Nat) : Nat :=
  chunks.foldl (fun sum size => sum + size) 0

/-- The `ondataavailable` handler: a chunk is buffered only when its size is
positive. -/
def ondataavailable (chunkSize : Nat) (chunks : List Nat) : List Nat :=
  if chunkSize > 0 then chunks ++ [chunkSize] else chunks

/-- The `mediaRecorder.onstop` handler. The source computes the duration in
seconds as `(Date.now() - recordingStartTimeRef.current) / 1000` and
compares it to `0.5`; with an integer millisecond difference that
comparison holds exactly when `durationMs < 500`, which is how the duration
test is embedded here. The duration check precedes the empty check; both
rejections stop the stream tracks and return before `processAudio`. -/
def onstop (durationMs : Nat) (chunks : List Nat) : StopResult :=
  if durationMs < 500 then
    ⟨StopOutcome.rejectedTooShort, true, false⟩
  else if chunkTotal chunks = 0 then
    ⟨StopOutcome.rejectedEmpty, true, false⟩
  else
    ⟨StopOutcome.processed (chunkTotal chunks), true, true⟩

/-- Response of the `/api/transcribe` call: `ok` status, HTTP status code,
the error body (read when not ok) and the optional `text` field of the JSON
body. -/
structure TranscribeResp where
  ok : Bool
  status : Nat
  errorText : String
  text : Option String
  deriving DecidableEq, Repr

/-- Response of the `/api/chat` call: `ok` status, HTTP status code, the
error body, and the optional `response` and `text` fields of the JSON
body. -/
structure ChatResp where
  ok : Bool
  status : Nat
  errorText : String
  response : Option String
  text : Option String
  deriving DecidableEq, Repr

/-- Response of the `/api/text-to-speech` call: `ok` status, HTTP status
code, the error body, and the object URL created from the audio blob on
success. -/
structure TTSResp where
  ok : Bool
  status : Nat
  errorText : String
  audioHandle : String
  deriving DecidableEq, Repr

/-- One run environment of `processAudio`: the value of `Date.now()` when
the run reaches the message constructions, and the three remote
responses. -/
structure Env where
  now : Nat
  transcribe : TranscribeResp
  chat : ChatResp
  tts : TTSResp
  deriving DecidableEq, Repr

/-- Observable steps of one `processAudio` run, in execution order. -/
inductive Step where
  | setProcessing (b : Bool)
  | callTranscribe
  | append (m : Msg)
  | callChat (message : String) (threadId : String) (currentPage : String)
  | callTTS (text : String) (voice : String)
  | play (audioHandle : String) (messageId : String)
  deriving DecidableEq, Repr

/-- The push-to-talk page state touched by `processAudio`. -/
structure PTState where
  messages : List Msg
  isProcessing : Bool
  deriving DecidableEq, Repr

/-- The recognized text: `transcriptData.text || "I couldn\x27t hear you
clearly."`. -/
def userTextOf (env : Env) : String :=
  jsOr env.transcribe.text "I couldn\x27t hear you clearly."

/-- The reply text: `chatData.response || chatData.text || "I couldn\x27t
process that request."`. -/
def aiTextOf (env : Env) : String :=
  jsOr env.chat.response (jsOr env.chat.text "I couldn\x27t process that request.")

/-- The `user` message built after a successful transcription call. -/
def userMsgOf (env : Env) : Msg :=
  ⟨toString env.now, MsgType.user, userTextOf env, env.now, none⟩

/-- The `assistant` message built after full success, carrying the audio
handle. -/
def asstMsgOf (env : Env) : Msg :=
  ⟨toString (env.now + 1), MsgType.assistant, aiTextOf env, env.now, some env.tts.audioHandle⟩

/-- The `assistant` message appended by the `catch` block; `emsg` is the
thrown error message. -/
def errorMsgOf (env : Env) (emsg : String) : Msg :=
  ⟨toString (env.now + 2), MsgType.assistant,
   "Sorry, I encountered an error: " ++ emsg ++
     ". Please make sure the backend is running and try again.",
   env.now, none⟩

/-- The `processAudio` function, returning the final page state and the
trace of observable steps. The four branches are the four exits of the
`try`/`catch`/`finally`: a throw at the transcribe, chat or TTS stage lands
in `catch` (which appends one error message) and every path ends in
`finally` clearing `isProcessing`. -/
def processAudio (env : Env) (selectedVoice threadId : String) (st : PTState) :
    PTState × List Step :=
  if env.transcribe.ok = false then
    let emsg := errorMsgOf env ("Transcription failed: " ++ toString env.transcribe.status)
    (⟨st.messages ++ [emsg], false⟩,
     [Step.setProcessing true, Step.callTranscribe, Step.append emsg,
      Step.setProcessing false])
  else if env.chat.ok = false then
    let emsg := errorMsgOf env
      ("Chat failed: " ++ toString env.chat.status ++ " - " ++ env.chat.errorText)
    (⟨st.messages ++ [userMsgOf env, emsg], false⟩,
     [Step.setProcessing true, Step.callTranscribe, Step.append (userMsgOf env),
      Step.callChat (userTextOf env) threadId "voiceChat", Step.append emsg,
      Step.setProcessing false])
  else if env.tts.ok = false then
    let emsg := errorMsgOf env ("TTS failed: " ++ toString env.tts.status)
    (⟨st.messages ++ [userMsgOf env, emsg], false⟩,
     [Step.setProcessing true, Step.callTranscribe, Step.append (userMsgOf env),
      Step.callChat (userTextOf env) threadId "voiceChat",
      Step.callTTS (aiTextOf env) selectedVoice, Step.append emsg,
      Step.setProcessing false])
  else
    (⟨st.messages ++ [userMsgOf env, asstMsgOf env], false⟩,
     [Step.setProcessing true, Step.callTranscribe, Step.append (userMsgOf env),
      Step.callChat (userTextOf env) threadId "voiceChat",
      Step.callTTS (aiTextOf env) selectedVoice, Step.append (asstMsgOf env),
      Step.play env.tts.audioHandle (asstMsgOf env).id, Step.setProcessing false])

/-- An audio element created by `new Audio(url)` in `playAudio`, identified
by a creation index. -/
structure AudioElem where
  eid : Nat
  url : String
  msgId : String
  playing : Bool
  deriving DecidableEq, Repr

/-- Playback state of the push-to-talk page: every audio element created so
far, the element held by `currentAudioRef`, and the `audioPlaying` message
id used for UI highlighting. -/
structure PlayerState where
  elems : List AudioElem
  currentAudio : Option Nat
  audioPlaying : Option String
  deriving DecidableEq, Repr

/-- Pause the element referenced by `currentAudioRef`, as the opening
`if (currentAudioRef.current) { currentAudioRef.current.pause(); ... }`. -/
def pauseIfCurrent (cur : Option Nat) (e : AudioElem) : AudioElem :=
  if cur = some e.eid then { e with playing := false } else e

/-- The `playAudio` function: stop whatever `currentAudioRef` points to,
create a fresh audio element for `audioUrl`, remember it in
`currentAudioRef`, mark `messageId` as playing and start playback. -/
def playAudio (audioUrl messageId : String) (st : PlayerState) : PlayerState :=
  { elems := st.elems.map (pauseIfCurrent st.currentAudio) ++
      [⟨st.elems.length, audioUrl, messageId, true⟩],
    currentAudio := some st.elems.length,
    audioPlaying := some messageId }

/-- Every playing element is the one referenced by `currentAudioRef`. -/
def playingOnlyCurrent (cur : Option Nat) (l : List AudioElem) : Bool :=
  l.all fun e => !e.playing || decide (cur = some e.eid)

/-- Elements are identified by their creation order. -/
def canonicalFrom (n : Nat) : List AudioElem → Bool
  | [] => true
  | e :: es => decide (e.eid = n) && canonicalFrom (n + 1) es

/-- Well-formedness of a playback state: elements carry their creation
index, and a playing element is the tracked one. -/
def PlayerInv (st : PlayerState) : Prop :=
  playingOnlyCurrent st.currentAudio st.elems = true ∧ canonicalFrom 0 st.elems = true

/-- The first list starts with the second. -/
def startsWithChars : List Char → List Char → Bool
  | _, [] => true
  | [], _ :: _ => false
  | c :: cs, p :: ps => c == p && startsWithChars cs ps

/-- The pattern occurs somewhere in the list. -/
def hasSubChars (pat : List Char) : List Char → Bool
  | [] => pat.isEmpty
  | c :: cs => startsWithChars (c :: cs) pat || hasSubChars pat cs

/-- The pattern occurs in the text. -/
def mentions (s pat : String) : Bool :=
  hasSubChars pat.data s.data

/-! Helper lemmas about the list combinators of the embedding. -/

theorem findLastIdx_append_singleton {α : Type} (p : α → Bool) (l : List α) (a : α)
    (h : p a = true) : findLastIdx p (l ++ [a]) = some l.length := by
  induction l with
  | nil => simp [findLastIdx, h]
  | cons b bs ih => simp [findLastIdx, ih]

theorem findLastIdx_sound {α : Type} (p : α → Bool) (l : List α) (i : Nat)
    (h : findLastIdx p l = some i) : ∃ a, l[i]? = some a ∧ p a = true := by
  induction l generalizing i with
  | nil => simp [findLastIdx] at h
  | cons b bs ih =>
    rw [findLastIdx] at h
    cases hr : findLastIdx p bs with
    | some j =>
      rw [hr] at h
      cases h
      obtain ⟨a, ha, hp⟩ := ih j hr
      exact ⟨a, by simpa using ha, hp⟩
    | none =>
      rw [hr] at h
      by_cases hp : p b = true
      · rw [if_pos hp] at h
        cases h
        exact ⟨b, by simp, hp⟩
      · rw [if_neg hp] at h
        cases h

theorem modifyIdx_append_singleton {α : Type} (f : α → α) (l : List α) (a : α) :
    modifyIdx f l.length (l ++ [a]) = l ++ [f a] := by
  induction l with
  | nil => simp [modifyIdx]
  | cons b bs ih => simp [modifyIdx, ih]

theorem modifyIdx_get_ne {α : Type} (f : α → α) (l : List α) (i j : Nat)
    (h : i ≠ j) : (modifyIdx f j l)[i]? = l[i]? := by
  induction l generalizing i j with
  | nil => simp [modifyIdx]
  | cons b bs ih =>
    cases j with
    | zero =>
      cases i with
      | zero => exact absurd rfl h
      | succ k => simp [modifyIdx]
    | succ m =>
      cases i with
      | zero => simp [modifyIdx]
      | succ k =>
        simp only [modifyIdx, List.getElem?_cons_succ]
        exact ih k m (by omega)

theorem modifyIdx_get_eq {α : Type} (f : α → α) (l : List α) (j : Nat) :
    (modifyIdx f j l)[j]? = l[j]?.map f := by
  induction l generalizing j with
  | nil => simp [modifyIdx]
  | cons b bs ih =>
    cases j with
    | zero => simp [modifyIdx]
    | succ m => simpa [modifyIdx] using ih m

theorem pause_not_playing (cur : Option Nat) (l : List AudioElem)
    (h : playingOnlyCurrent cur l = true) :
    ∀ e ∈ l.map (pauseIfCurrent cur), e.playing = false := by
  intro e he
  rcases List.mem_map.mp he with ⟨a, ha, rfl⟩
  have h2 := List.all_eq_true.mp h a ha
  unfold pauseIfCurrent
  by_cases hc : cur = some a.eid
  · simp [hc]
  · simp [hc] at h2
    simp [hc, h2]

theorem canonicalFrom_map_pause (cur : Option Nat) (n : Nat) (l : List AudioElem)
    (h : canonicalFrom n l = true) :
    canonicalFrom n (l.map (pauseIfCurrent cur)) = true := by
  induction l generalizing n with
  | nil => simp [canonicalFrom]
  | cons a as ih =>
    simp only [canonicalFrom, Bool.and_eq_true, decide_eq_true_eq] at h
    have heid : (pauseIfCurrent cur a).eid = a.eid := by
      unfold pauseIfCurrent; split <;> rfl
    simp only [List.map_cons, canonicalFrom, Bool.and_eq_true, decide_eq_true_eq, heid]
    exact ⟨h.1, ih (n + 1) h.2⟩

theorem canonicalFrom_append_one (n : Nat) (l : List AudioElem) (a : AudioElem)
    (h : canonicalFrom n l = true) (ha : a.eid = n + l.length) :
    canonicalFrom n (l ++ [a]) = true := by
  induction l generalizing n with
  | nil => simp [canonicalFrom, ha]
  | cons b bs ih =>
    simp only [canonicalFrom, Bool.and_eq_true, decide_eq_true_eq] at h
    simp only [List.cons_append, canonicalFrom, Bool.and_eq_true, decide_eq_true_eq]
    refine ⟨h.1, ih (n + 1) h.2 ?_⟩
    simp only [List.length_cons] at ha
    omega

theorem playAudio_length (audioUrl messageId : String) (st : PlayerState) :
    (playAudio audioUrl messageId st).elems.length = st.elems.length + 1 := by
  simp [playAudio]

theorem playAudio_inv (audioUrl messageId : String) (st : PlayerState)
    (h : PlayerInv st) : PlayerInv (playAudio audioUrl messageId st) := by
  obtain ⟨hp, hc⟩ := h
  constructor
  · simp only [playAudio, playingOnlyCurrent, List.all_append, Bool.and_eq_true]
    constructor
    · apply List.all_eq_true.mpr
      intro e he
      have := pause_not_playing st.currentAudio st.elems hp e he
      simp [this]
    · simp [playingOnlyCurrent]
  · simp only [playAudio]
    apply canonicalFrom_append_one
    · exact canonicalFrom_map_pause st.currentAudio 0 st.elems hc
    · simp

theorem playAudio_playing_filter (audioUrl messageId : String) (st : PlayerState)
    (h : PlayerInv st) :
    ((playAudio audioUrl messageId st).elems.filter fun e => e.playing) =
      [⟨st.elems.length, audioUrl, messageId, true⟩] := by
  obtain ⟨hp, _⟩ := h
  simp only [playAudio, List.filter_append]
  have h1 : ((st.elems.map (pauseIfCurrent st.currentAudio)).filter fun e => e.playing) = [] := by
    apply List.filter_eq_nil_iff.mpr
    intro e he
    have := pause_not_playing st.currentAudio st.elems hp e he
    simp [this]
  simp [h1]

/-- C4: at any instant at most one audio handle is in the
currently-playing state: invoking `playAudio` twice in succession from any
well-formed playback state leaves exactly one playing element, namely the
second one, while the element created by the first call is present and
stopped; the well-formedness invariant is preserved by both calls. -/
theorem playAudio_single_flight (st : PlayerState) (u1 m1 u2 m2 : String)
    (h : PlayerInv st) :
    ((playAudio u2 m2 (playAudio u1 m1 st)).elems.filter fun e => e.playing) =
      [⟨st.elems.length + 1, u2, m2, true⟩] ∧
    AudioElem.mk st.elems.length u1 m1 false ∈ (playAudio u2 m2 (playAudio u1 m1 st)).elems ∧
    (playAudio u2 m2 (playAudio u1 m1 st)).currentAudio = some (st.elems.length + 1) ∧
    (playAudio u2 m2 (playAudio u1 m1 st)).audioPlaying = some m2 ∧
    PlayerInv (playAudio u2 m2 (playAudio u1 m1 st)) := by
  have h1 : PlayerInv (playAudio u1 m1 st) := playAudio_inv u1 m1 st h
  have h2 : PlayerInv (playAudio u2 m2 (playAudio u1 m1 st)) := playAudio_inv u2 m2 _ h1
  refine ⟨?_, ?_, ?_, ?_, h2⟩
  · have := playAudio_playing_filter u2 m2 (playAudio u1 m1 st) h1
    rwa [playAudio_length] at this
  · show AudioElem.mk st.elems.length u1 m1 false ∈
      ((playAudio u1 m1 st).elems.map
        (pauseIfCurrent (playAudio u1 m1 st).currentAudio)) ++ _
    apply List.mem_append_left
    apply List.mem_map.mpr
    refine ⟨⟨st.elems.length, u1, m1, true⟩, ?_, ?_⟩
    · simp [playAudio]
    · simp [playAudio, pauseIfCurrent]
  · rw [show (playAudio u2 m2 (playAudio u1 m1 st)).currentAudio =
      some (playAudio u1 m1 st).elems.length from rfl, playAudio_length]
  · rfl

/-- Witness for C4 at the empty playback state. -/
theorem playAudio_single_flight_witness :
    ((playAudio "blob:b" "m2" (playAudio "blob:a" "m1" ⟨[], none, none⟩)).elems.filter
        fun e => e.playing) = [⟨1, "blob:b", "m2", true⟩] ∧
    AudioElem.mk 0 "blob:a" "m1" false ∈
      (playAudio "blob:b" "m2" (playAudio "blob:a" "m1" ⟨[], none, none⟩)).elems := by
  have h := playAudio_single_flight ⟨[], none, none⟩ "blob:a" "m1" "blob:b" "m2"
    (by constructor <;> rfl)
  exact ⟨h.1, h.2.1⟩

/-- C1: on a fully successful pipeline run the trace shows the `user`
message appended right after the transcription call and before the chat
call, the `assistant` message appended at the end, and the audio handle
handed to playback immediately after that; in the resulting log the `user`
Turn precedes the `assistant` Turn and the `assistant` Turn carries exactly
the one audio handle returned by synthesis. -/
theorem processAudio_success_order (env : Env) (voice threadId : String) (st : PTState)
    (h1 : env.transcribe.ok = true) (h2 : env.chat.ok = true) (h3 : env.tts.ok = true) :
    (processAudio env voice threadId st).2 =
      [Step.setProcessing true, Step.callTranscribe, Step.append (userMsgOf env),
       Step.callChat (userTextOf env) threadId "voiceChat",
       Step.callTTS (aiTextOf env) voice, Step.append (asstMsgOf env),
       Step.play env.tts.audioHandle (asstMsgOf env).id, Step.setProcessing false] ∧
    (processAudio env voice threadId st).1.messages =
      st.messages ++ [userMsgOf env, asstMsgOf env] ∧
    (userMsgOf env).type = MsgType.user ∧
    (asstMsgOf env).type = MsgType.assistant ∧
    (asstMsgOf env).audioUrl = some env.tts.audioHandle ∧
    (processAudio env voice threadId st).1.isProcessing = false := by
  simp [processAudio, h1, h2, h3, userMsgOf, asstMsgOf]

/-- Witness for C1 at a concrete environment. -/
theorem processAudio_success_order_witness :
    (processAudio ⟨10, ⟨true, 200, "", some "hello"⟩,
        ⟨true, 200, "", some "hi there", none⟩, ⟨true, 200, "", "blob:a1"⟩⟩
      "nova" "t1" ⟨[], false⟩).1.messages =
      [] ++ [userMsgOf ⟨10, ⟨true, 200, "", some "hello"⟩,
        ⟨true, 200, "", some "hi there", none⟩, ⟨true, 200, "", "blob:a1"⟩⟩,
       asstMsgOf ⟨10, ⟨true, 200, "", some "hello"⟩,
        ⟨true, 200, "", some "hi there", none⟩, ⟨true, 200, "", "blob:a1"⟩⟩] :=
  (processAudio_success_order ⟨10, ⟨true, 200, "", some "hello"⟩,
    ⟨true, 200, "", some "hi there", none⟩, ⟨true, 200, "", "blob:a1"⟩⟩
    "nova" "t1" ⟨[], false⟩ rfl rfl rfl).2.1

/-- C8: when the transcription call returns a non-success status the
pipeline aborts: exactly one `assistant` error Turn is appended, no `user`
Turn is appended for the gesture, no later stage is called, and the
processing flag is cleared. -/
theorem processAudio_transcribe_fail (env : Env) (voice threadId : String) (st : PTState)
    (h : env.transcribe.ok = false) :
    (processAudio env voice threadId st).1.messages =
      st.messages ++
        [errorMsgOf env ("Transcription failed: " ++ toString env.transcribe.status)] ∧
    (errorMsgOf env ("Transcription failed: " ++ toString env.transcribe.status)).type =
      MsgType.assistant ∧
    (processAudio env voice threadId st).2 =
      [Step.setProcessing true, Step.callTranscribe,
       Step.append (errorMsgOf env ("Transcription failed: " ++ toString env.transcribe.status)),
       Step.setProcessing false] ∧
    (processAudio env voice threadId st).1.isProcessing = false := by
  simp [processAudio, h, errorMsgOf]

/-- Witness for C8 at a concrete failing environment. -/
theorem processAudio_transcribe_fail_witness :
    (processAudio ⟨20, ⟨false, 500, "boom", none⟩,
        ⟨true, 200, "", some "x", none⟩, ⟨true, 200, "", "blob:a3"⟩⟩
      "nova" "t1" ⟨[], false⟩).1.messages =
      [] ++ [errorMsgOf ⟨20, ⟨false, 500, "boom", none⟩,
        ⟨true, 200, "", some "x", none⟩, ⟨true, 200, "", "blob:a3"⟩⟩
        ("Transcription failed: " ++ toString (500 : Nat))] :=
  (processAudio_transcribe_fail ⟨20, ⟨false, 500, "boom", none⟩,
    ⟨true, 200, "", some "x", none⟩, ⟨true, 200, "", "blob:a3"⟩⟩
    "nova" "t1" ⟨[], false⟩ rfl).1

/-- C10: when the transcription call succeeds but its JSON body has a
missing or empty `text` field, the pipeline proceeds with the fallback text
"I couldn\x27t hear you clearly.": the appended `user` Turn carries the
fallback, and the chat stage is invoked with the fallback as the message. -/
theorem processAudio_empty_transcript_fallback (env : Env) (voice threadId : String)
    (st : PTState) (h1 : env.transcribe.ok = true)
    (h2 : env.transcribe.text = none ∨ env.transcribe.text = some "") :
    userTextOf env = "I couldn\x27t hear you clearly." ∧
    (userMsgOf env).type = MsgType.user ∧
    (userMsgOf env).text = "I couldn\x27t hear you clearly." ∧
    (∃ rest, (processAudio env voice threadId st).2 =
      [Step.setProcessing true, Step.callTranscribe, Step.append (userMsgOf env),
       Step.callChat "I couldn\x27t hear you clearly." threadId "voiceChat"] ++ rest) ∧
    (∃ tail, (processAudio env voice threadId st).1.messages =
      st.messages ++ userMsgOf env :: tail) := by
  have hu : userTextOf env = "I couldn\x27t hear you clearly." := by
    rcases h2 with h2 | h2 <;> simp [userTextOf, jsOr, h2]
  refine ⟨hu, rfl, by simp [userMsgOf, hu], ?_, ?_⟩
  · cases hc : env.chat.ok with
    | false => exact ⟨_, by simp [processAudio, h1, hc, hu]; rfl⟩
    | true =>
      cases ht : env.tts.ok with
      | false => exact ⟨_, by simp [processAudio, h1, hc, ht, hu]; rfl⟩
      | true => exact ⟨_, by simp [processAudio, h1, hc, ht, hu]; rfl⟩
  · cases hc : env.chat.ok with
    | false => exact ⟨_, by simp [processAudio, h1, hc]; rfl⟩
    | true =>
      cases ht : env.tts.ok with
      | false => exact ⟨_, by simp [processAudio, h1, hc, ht]; rfl⟩
      | true => exact ⟨_, by simp [processAudio, h1, hc, ht]; rfl⟩

/-- Witness for C10 at a concrete environment whose transcript text is
missing. -/
theorem processAudio_empty_transcript_fallback_witness :
    userTextOf ⟨30, ⟨true, 200, "", none⟩, ⟨true, 200, "", some "ok", none⟩,
      ⟨true, 200, "", "blob:a4"⟩⟩ = "I couldn\x27t hear you clearly." :=
  (processAudio_empty_transcript_fallback ⟨30, ⟨true, 200, "", none⟩,
    ⟨true, 200, "", some "ok", none⟩, ⟨true, 200, "", "blob:a4"⟩⟩
    "nova" "t1" ⟨[], false⟩ rfl (Or.inl rfl)).1

/-- C5 counterexample: a recording of 100 ms with no captured bytes is
rejected with `RecordingTooShort`, not with `EmptyRecording` — the duration
check runs first, so the claim that every zero-byte recording is rejected
with `EmptyRecording` fails. -/
theorem onstop_zero_bytes_counterexample :
    onstop 100 [] = ⟨StopOutcome.rejectedTooShort, true, false⟩ ∧
    chunkTotal [] = 0 ∧
    (onstop 100 []).outcome ≠ StopOutcome.rejectedEmpty := by
  refine ⟨rfl, rfl, ?_⟩
  decide

/-- C5 amended: a recording shorter than 500 ms is rejected with
`RecordingTooShort`; a recording of at least 500 ms whose captured bytes
total zero is rejected with `EmptyRecording`; in both rejection cases the
stream tracks are stopped (the device released) and the pipeline is never
invoked. -/
theorem onstop_validation (durationMs : Nat) (chunks : List Nat) :
    (durationMs < 500 →
      onstop durationMs chunks = ⟨StopOutcome.rejectedTooShort, true, false⟩) ∧
    (500 ≤ durationMs → chunkTotal chunks = 0 →
      onstop durationMs chunks = ⟨StopOutcome.rejectedEmpty, true, false⟩) := by
  constructor
  · intro h
    simp [onstop, h]
  · intro h hz
    have hn : ¬ durationMs < 500 := by omega
    simp [onstop, hn, hz]

/-- Witness for the amended C5 at 100 ms and at 600 ms with no bytes. -/
theorem onstop_validation_witness :
    onstop 100 [0] = ⟨StopOutcome.rejectedTooShort, true, false⟩ ∧
    onstop 600 [] = ⟨StopOutcome.rejectedEmpty, true, false⟩ :=
  ⟨(onstop_validation 100 [0]).1 (by decide),
   (onstop_validation 600 []).2 (by decide) rfl⟩

/-- C6 counterexample: the error Turn appended after a reasoning-stage
failure is not diagnostic-free — its text embeds the thrown error message,
here the HTTP status 500 and the raw backend error body. -/
theorem processAudio_error_turn_counterexample :
    (processAudio ⟨100, ⟨true, 200, "", some "remove the vehicle"⟩,
        ⟨false, 500, "Internal Server Error", none, none⟩, ⟨true, 200, "", "blob:a2"⟩⟩
      "nova" "t1" ⟨[], false⟩).1.messages.get? 1 =
      some ⟨toString (102 : Nat), MsgType.assistant,
        "Sorry, I encountered an error: Chat failed: 500 - Internal Server Error. Please make sure the backend is running and try again.",
        100, none⟩ ∧
    mentions
      "Sorry, I encountered an error: Chat failed: 500 - Internal Server Error. Please make sure the backend is running and try again."
      "500" = true ∧
    mentions
      "Sorry, I encountered an error: Chat failed: 500 - Internal Server Error. Please make sure the backend is running and try again."
      "Internal Server Error" = true := by
  refine ⟨?_, ?_, ?_⟩ <;> decide

/-- C6 amended: every pipeline-stage failure is converted into exactly one
`assistant`-role error Turn whose text is the apologetic template with the
thrown error message (stage name and HTTP status, plus the response body
for the chat stage) embedded; the processing flag is cleared so a new
gesture can be accepted, and the trace shows each remote stage called at
most once (no automatic retry). -/
theorem processAudio_stage_failures (env : Env) (voice threadId : String) (st : PTState) :
    (env.transcribe.ok = false →
      processAudio env voice threadId st =
        (⟨st.messages ++
            [errorMsgOf env ("Transcription failed: " ++ toString env.transcribe.status)],
          false⟩,
         [Step.setProcessing true, Step.callTranscribe,
          Step.append (errorMsgOf env
            ("Transcription failed: " ++ toString env.transcribe.status)),
          Step.setProcessing false])) ∧
    (env.transcribe.ok = true → env.chat.ok = false →
      processAudio env voice threadId st =
        (⟨st.messages ++ [userMsgOf env,
            errorMsgOf env
              ("Chat failed: " ++ toString env.chat.status ++ " - " ++ env.chat.errorText)],
          false⟩,
         [Step.setProcessing true, Step.callTranscribe, Step.append (userMsgOf env),
          Step.callChat (userTextOf env) threadId "voiceChat",
          Step.append (errorMsgOf env
            ("Chat failed: " ++ toString env.chat.status ++ " - " ++ env.chat.errorText)),
          Step.setProcessing false])) ∧
    (env.transcribe.ok = true → env.chat.ok = true → env.tts.ok = false →
      processAudio env voice threadId st =
        (⟨st.messages ++ [userMsgOf env,
            errorMsgOf env ("TTS failed: " ++ toString env.tts.status)], false⟩,
         [Step.setProcessing true, Step.callTranscribe, Step.append (userMsgOf env),
          Step.callChat (userTextOf env) threadId "voiceChat",
          Step.callTTS (aiTextOf env) voice,
          Step.append (errorMsgOf env ("TTS failed: " ++ toString env.tts.status)),
          Step.setProcessing false])) ∧
    (∀ emsg, (errorMsgOf env emsg).type = MsgType.assistant ∧
      (errorMsgOf env emsg).text =
        "Sorry, I encountered an error: " ++ emsg ++
          ". Please make sure the backend is running and try again.") := by
  refine ⟨?_, ?_, ?_, fun emsg => ⟨rfl, rfl⟩⟩
  · intro h
    simp [processAudio, h]
  · intro h1 h2
    simp [processAudio, h1, h2]
  · intro h1 h2 h3
    simp [processAudio, h1, h2, h3]

/-- Witness for the amended C6 at a concrete synthesis failure. -/
theorem processAudio_stage_failures_witness :
    processAudio ⟨40, ⟨true, 200, "", some "hi"⟩, ⟨true, 200, "", some "ok", none⟩,
        ⟨false, 503, "unavailable", "blob:none"⟩⟩ "nova" "t1" ⟨[], false⟩ =
      (⟨[] ++ [userMsgOf ⟨40, ⟨true, 200, "", some "hi"⟩, ⟨true, 200, "", some "ok", none⟩,
            ⟨false, 503, "unavailable", "blob:none"⟩⟩,
          errorMsgOf ⟨40, ⟨true, 200, "", some "hi"⟩, ⟨true, 200, "", some "ok", none⟩,
            ⟨false, 503, "unavailable", "blob:none"⟩⟩
            ("TTS failed: " ++ toString (503 : Nat))], false⟩,
       [Step.setProcessing true, Step.callTranscribe,
        Step.append (userMsgOf ⟨40, ⟨true, 200, "", some "hi"⟩,
          ⟨true, 200, "", some "ok", none⟩, ⟨false, 503, "unavailable", "blob:none"⟩⟩),
        Step.callChat (userTextOf ⟨40, ⟨true, 200, "", some "hi"⟩,
          ⟨true, 200, "", some "ok", none⟩, ⟨false, 503, "unavailable", "blob:none"⟩⟩)
          "t1" "voiceChat",
        Step.callTTS (aiTextOf ⟨40, ⟨true, 200, "", some "hi"⟩,
          ⟨true, 200, "", some "ok", none⟩, ⟨false, 503, "unavailable", "blob:none"⟩⟩) "nova",
        Step.append (errorMsgOf ⟨40, ⟨true, 200, "", some "hi"⟩,
          ⟨true, 200, "", some "ok", none⟩, ⟨false, 503, "unavailable", "blob:none"⟩⟩
          ("TTS failed: " ++ toString (503 : Nat))),
        Step.setProcessing false]) :=
  (processAudio_stage_failures ⟨40, ⟨true, 200, "", some "hi"⟩,
    ⟨true, 200, "", some "ok", none⟩, ⟨false, 503, "unavailable", "blob:none"⟩⟩
    "nova" "t1" ⟨[], false⟩).2.2.1 rfl rfl rfl

/-- C7: a `transcription` event with `toolName = 'agent'` appends an
`assistant` Turn and leaves the live preview slot alone; any other
`toolName` appends a `user` Turn and clears the live preview slot; in both
cases the event content is appended directly and the active tools are
untouched. -/
theorem handleEvent_transcription (now : Nat) (st : CState) (content : String)
    (tn : Option String) :
    (tn = some "agent" →
      (handleEvent now (DCEvent.transcription content tn) st).messages =
        st.messages ++ [⟨toString now, Role.assistant, content, now, some false, none⟩] ∧
      (handleEvent now (DCEvent.transcription content tn) st).liveUserText =
        st.liveUserText) ∧
    (tn ≠ some "agent" →
      (handleEvent now (DCEvent.transcription content tn) st).messages =
        st.messages ++ [⟨toString now, Role.user, content, now, some false, none⟩] ∧
      (handleEvent now (DCEvent.transcription content tn) st).liveUserText = "") ∧
    (handleEvent now (DCEvent.transcription content tn) st).activeTools =
      st.activeTools := by
  refine ⟨?_, ?_, rfl⟩
  · intro h
    simp [handleEvent, h]
  · intro h
    simp [handleEvent, h]

/-- Witness for C7 at an agent transcription and at a user transcription. -/
theorem handleEvent_transcription_witness :
    (handleEvent 5 (DCEvent.transcription "here is the fleet" (some "agent"))
        ⟨[], "draft", []⟩).messages =
      [] ++ [⟨toString (5 : Nat), Role.assistant, "here is the fleet", 5, some false, none⟩] ∧
    (handleEvent 6 (DCEvent.transcription "show trips" none)
        ⟨[], "draft", []⟩).liveUserText = "" :=
  ⟨((handleEvent_transcription 5 ⟨[], "draft", []⟩ "here is the fleet" (some "agent")).1
      rfl).1,
   ((handleEvent_transcription 6 ⟨[], "draft", []⟩ "show trips" none).2.1
      (by decide)).2⟩

/-- C2: on the transition to `thinking` with a non-empty live preview,
exactly one `user` Turn carrying the preview is appended unless the
immediately preceding Turn is a `user` Turn with identical content, in
which case nothing is appended; the preview slot is not cleared by the
commit, and the transition to `speaking` clears the preview slot
unconditionally. -/
theorem onStateChange_thinking_commit (now : Nat) (st : CState)
    (h : st.liveUserText ≠ "") :
    (isDupLast st = false →
      (onStateChange now AState.thinking st).messages =
        st.messages ++ [⟨toString now, Role.user, st.liveUserText, now, none, none⟩]) ∧
    (isDupLast st = true →
      (onStateChange now AState.thinking st).messages = st.messages) ∧
    (onStateChange now AState.thinking st).liveUserText = st.liveUserText ∧
    (∀ st2 now2, (onStateChange now2 AState.speaking st2).liveUserText = "") := by
  have hp : previewEffect AState.thinking st = st := by
    simp [previewEffect, h]
  refine ⟨?_, ?_, ?_, ?_⟩
  · intro hd
    simp [onStateChange, hp, commitEffect, h, hd]
  · intro hd
    simp [onStateChange, hp, commitEffect, h, hd]
  · by_cases hd : isDupLast st = true
    · simp [onStateChange, hp, commitEffect, h, hd]
    · simp [onStateChange, hp, commitEffect, h, hd]
  · intro st2 now2
    by_cases h2 : st2.liveUserText = ""
    · simp [onStateChange, previewEffect, commitEffect, h2]
    · simp [onStateChange, previewEffect, commitEffect, h2]

/-- Witness for C2 with preview "remove the vehicle" over an empty log. -/
theorem onStateChange_thinking_commit_witness :
    (onStateChange 7 AState.thinking ⟨[], "remove the vehicle", []⟩).messages =
      [] ++ [⟨toString (7 : Nat), Role.user, "remove the vehicle", 7, none, none⟩] ∧
    (onStateChange 7 AState.thinking ⟨[], "remove the vehicle", []⟩).liveUserText =
      "remove the vehicle" ∧
    (onStateChange 8 AState.speaking ⟨[], "remove the vehicle", []⟩).liveUserText = "" := by
  have h := onStateChange_thinking_commit 7 ⟨[], "remove the vehicle", []⟩ (by decide)
  exact ⟨h.1 rfl, h.2.2.1, h.2.2.2 ⟨[], "remove the vehicle", []⟩ 8⟩

/-- C3: a `tool_call` for `X` directly followed by a `tool_result` for `X`,
with no other active tool named `X`, removes exactly the one Tool Activity
entry created by the call and turns exactly the one pending `system` Turn
into a `success` Turn whose content is the result description. -/
theorem toolCall_toolResult_roundtrip (now1 now2 : Nat) (st : CState)
    (X c r : String) (hX : X ≠ "")
    (hNo : ∀ t ∈ st.activeTools, t.name ≠ X) :
    (handleEvent now1 (DCEvent.tool_call (some X) c) st).activeTools =
      st.activeTools ++ [⟨toString now1, X, ToolRunStatus.running, c⟩] ∧
    (handleEvent now1 (DCEvent.tool_call (some X) c) st).messages =
      st.messages ++
        [⟨toString now1, Role.system, c, now1, none, some ⟨some X, some TurnStatus.pending⟩⟩] ∧
    (handleEvent now2 (DCEvent.tool_result (some X) r)
        (handleEvent now1 (DCEvent.tool_call (some X) c) st)).activeTools =
      st.activeTools ∧
    (handleEvent now2 (DCEvent.tool_result (some X) r)
        (handleEvent now1 (DCEvent.tool_call (some X) c) st)).messages =
      st.messages ++
        [⟨toString now1, Role.system, r, now1, none, some ⟨some X, some TurnStatus.success⟩⟩] := by
  have hjs : jsOr (some X) "Unknown Tool" = X := by
    simp [jsOr, hX]
  have e1 : (handleEvent now1 (DCEvent.tool_call (some X) c) st).activeTools =
      st.activeTools ++ [⟨toString now1, X, ToolRunStatus.running, c⟩] := by
    simp [handleEvent, hjs]
  have e2 : (handleEvent now1 (DCEvent.tool_call (some X) c) st).messages =
      st.messages ++
        [⟨toString now1, Role.system, c, now1, none,
          some ⟨some X, some TurnStatus.pending⟩⟩] := rfl
  have h1 : (st.activeTools.filter fun t => !(decide (some t.name = some X))) =
      st.activeTools := by
    apply List.filter_eq_self.mpr
    intro t ht
    simpa using hNo t ht
  have hfind := findLastIdx_append_singleton (matchToolMsg (some X)) st.messages
    (⟨toString now1, Role.system, c, now1, none,
      some ⟨some X, some TurnStatus.pending⟩⟩ : CMsg) (by simp [matchToolMsg])
  refine ⟨e1, e2, ?_, ?_⟩
  · simp only [handleEvent, e1, List.filter_append, h1]
    simp [hjs]
  · simp only [handleEvent, e2, hfind]
    rw [modifyIdx_append_singleton]
    rfl

/-- Witness for C3 at a concrete call/result pair for tool "X". -/
theorem toolCall_toolResult_roundtrip_witness :
    (handleEvent 2 (DCEvent.tool_result (some "X") "done")
        (handleEvent 1 (DCEvent.tool_call (some "X") "calling X") ⟨[], "", []⟩)).messages =
      [] ++ [⟨toString (1 : Nat), Role.system, "done", 1, none,
        some ⟨some "X", some TurnStatus.success⟩⟩] ∧
    (handleEvent 2 (DCEvent.tool_result (some "X") "done")
        (handleEvent 1 (DCEvent.tool_call (some "X") "calling X") ⟨[], "", []⟩)).activeTools =
      [] := by
  have h := toolCall_toolResult_roundtrip 1 2 ⟨[], "", []⟩ "X" "calling X" "done"
    (by decide) (by intro t ht; simp at ht)
  exact ⟨h.2.2.2, h.2.2.1⟩

/-- C9 counterexample: after `tool_call X` and `tool_result X`, the single
`system` Turn already has status `success`; a duplicate `tool_result X`
modifies that Turn again, replacing its content — so a system Turn whose
status is already `success` is not immutable. -/
theorem toolResult_rewrites_success_counterexample :
    (handleEvent 2 (DCEvent.tool_result (some "X") "done")
        (handleEvent 1 (DCEvent.tool_call (some "X") "calling X")
          ⟨[], "", []⟩)).messages.get? 0 =
      some ⟨"1", Role.system, "done", 1, none, some ⟨some "X", some TurnStatus.success⟩⟩ ∧
    (handleEvent 3 (DCEvent.tool_result (some "X") "done again")
        (handleEvent 2 (DCEvent.tool_result (some "X") "done")
          (handleEvent 1 (DCEvent.tool_call (some "X") "calling X")
            ⟨[], "", []⟩))).messages.get? 0 =
      some ⟨"1", Role.system, "done again", 1, none,
        some ⟨some "X", some TurnStatus.success⟩⟩ := by
  constructor <;> decide

/-- C9 amended: a single event changes an already-appended Turn only when
the event is a `tool_result` and the Turn is the most recent `system` Turn
with matching `toolName` — chosen irrespective of its current status, so a
repeated `tool_result` rewrites a Turn already marked `success`; the
rewrite replaces the content and sets status `success`, and no non-system
Turn is ever modified in place. -/
theorem handleEvent_frame (now : Nat) (ev : DCEvent) (st : CState) (i : Nat)
    (hi : i < st.messages.length) :
    (handleEvent now ev st).messages[i]? = st.messages[i]? ∨
    ∃ tn c old, ev = DCEvent.tool_result tn c ∧
      st.messages[i]? = some old ∧ old.role = Role.system ∧
      findLastIdx (matchToolMsg tn) st.messages = some i ∧
      (handleEvent now ev st).messages[i]? =
        some { old with
          content := c,
          metadata := some ⟨old.metadata.bind MsgMeta.toolName, some TurnStatus.success⟩ } := by
  cases ev with
  | transcription c tn =>
    left
    simp only [handleEvent]
    exact List.getElem?_append_left hi
  | tool_call tn c =>
    left
    simp only [handleEvent]
    exact List.getElem?_append_left hi
  | tool_result tn c =>
    cases hf : findLastIdx (matchToolMsg tn) st.messages with
    | none =>
      left
      simp [handleEvent, hf]
    | some idx =>
      by_cases hij : i = idx
      · subst hij
        obtain ⟨a, ha, hp⟩ := findLastIdx_sound (matchToolMsg tn) st.messages i hf
        have hrole := (of_decide_eq_true hp).1
        right
        refine ⟨tn, c, a, rfl, ha, hrole, hf, ?_⟩
        simp [handleEvent, hf, modifyIdx_get_eq, ha]
      · left
        simp [handleEvent, hf, modifyIdx_get_ne _ _ _ _ hij]

/-- Witness for the amended C9 at a transcription event over a one-message
log. -/
theorem handleEvent_frame_witness :
    (handleEvent 9 (DCEvent.transcription "hello" none)
        ⟨[⟨"m0", Role.assistant, "welcome", 0, some false, none⟩], "", []⟩).messages[0]? =
      (⟨[⟨"m0", Role.assistant, "welcome", 0, some false, none⟩], "", []⟩ :
        CState).messages[0]? ∨
    ∃ tn c old, DCEvent.transcription "hello" none = DCEvent.tool_result tn c ∧
      (⟨[⟨"m0", Role.assistant, "welcome", 0, some false, none⟩], "", []⟩ :
        CState).messages[0]? = some old ∧ old.role = Role.system ∧
      findLastIdx (matchToolMsg tn)
        (⟨[⟨"m0", Role.assistant, "welcome", 0, some false, none⟩], "", []⟩ :
          CState).messages = some 0 ∧
      (handleEvent 9 (DCEvent.transcription "hello" none)
        ⟨[⟨"m0", Role.assistant, "welcome", 0, some false, none⟩], "", []⟩).messages[0]? =
        some { old with
          content := c,
          metadata := some ⟨old.metadata.bind MsgMeta.toolName, some TurnStatus.success⟩ } :=
  handleEvent_frame 9 (DCEvent.transcription "hello" none)
    ⟨[⟨"m0", Role.assistant, "welcome", 0, some false, none⟩], "", []⟩ 0 (by decide)

end MoviVoice
